import Mathlib

/-!
Verification of the token lifecycle and rotation subsystem of the api-auth
service (src/api-auth/src/auth_handler.rs and src/api-auth/src/main.rs).

JWTs are modelled symbolically: a signed token records its claims and the
key it was signed with, and verification succeeds exactly when the key
matches the verifying secret and the expiry has not passed.  The
refresh_tokens database table is modelled as an association list keyed by
jti; the two SQL statements of the handlers (an atomic DELETE returning its
affected-row count, and an INSERT .. ON DUPLICATE KEY UPDATE) are modelled
as pure operations on that list.  Infrastructure outcomes (a SQL statement
erroring, a jwt encode call erroring) are supplied to the rotation handler
as explicit flags, so the handler's behaviour on every failure path is part
of the model.  Times are integers (Unix seconds).
-/

namespace ApiAuth

/-- Claims of an access token (struct AccessTokenClaims in auth_handler.rs). -/
structure AccessTokenClaims where
  sub : String
  exp : Int
deriving DecidableEq, Repr

/-- Claims of a refresh token (struct RefreshTokenClaims in auth_handler.rs). -/
structure RefreshTokenClaims where
  sub : String
  jti : String
  exp : Int
deriving DecidableEq, Repr

/-- Payload of a signed JWT: either access-shaped (sub, exp) or
refresh-shaped (sub, jti, exp). -/
inductive JwtPayload where
  | access (sub : String) (exp : Int)
  | refresh (sub : String) (jti : String) (exp : Int)
deriving DecidableEq, Repr

/-- A signed JWT: its payload together with the key it was signed with. -/
structure Jwt where
  payload : JwtPayload
  key : String
deriving DecidableEq, Repr

/-- A string presented as a token: either a well-formed signed JWT or an
arbitrary string that is not a JWT at all. -/
inductive TokenStr where
  | jwt (t : Jwt)
  | garbage (s : String)
deriving DecidableEq, Repr

/-- Error kinds of jsonwebtoken decode that this code can hit. -/
inductive JwtError where
  | invalidSignature
  | expiredSignature
  | malformed
deriving DecidableEq, Repr

/-- Decode of a presented token as RefreshTokenClaims with
Validation::default() (auth_handler.rs line 198): the signature is checked
against the secret; a payload without a jti field fails deserialization;
an expiry in the past fails validation. -/
def decodeRefresh (t : TokenStr) (secret : String) (now : Int) :
    Except JwtError RefreshTokenClaims :=
  match t with
  | .garbage _ => .error .malformed
  | .jwt j =>
    if j.key = secret then
      match j.payload with
      | .refresh sub jti exp =>
        if exp < now then .error .expiredSignature else .ok ⟨sub, jti, exp⟩
      | .access _ _ => .error .malformed
    else .error .invalidSignature

/-- Decode of a presented token as AccessTokenClaims with
Validation::default() (auth_handler.rs line 283).  A refresh-shaped payload
also deserializes: serde ignores the extra jti field. -/
def decodeAccess (t : TokenStr) (secret : String) (now : Int) :
    Except JwtError AccessTokenClaims :=
  match t with
  | .garbage _ => .error .malformed
  | .jwt j =>
    if j.key = secret then
      match j.payload with
      | .access sub exp =>
        if exp < now then .error .expiredSignature else .ok ⟨sub, exp⟩
      | .refresh sub _ exp =>
        if exp < now then .error .expiredSignature else .ok ⟨sub, exp⟩
    else .error .invalidSignature

/-- One row of the refresh_tokens table (columns user_id and expires_at;
jti is the key). -/
structure RefreshRecord where
  userId : Int
  expiresAt : Int
deriving DecidableEq, Repr

/-- The refresh_tokens table: rows keyed by jti. -/
abbrev Store := List (String × RefreshRecord)

/-- Row lookup by jti. -/
def Store.find (s : Store) (j : String) : Option RefreshRecord :=
  (List.find? (fun p => p.1 == j) s).map Prod.snd

/-- Number of rows with the given jti (the affected-row count of
DELETE FROM refresh_tokens WHERE jti = ?). -/
def Store.countJti (s : Store) (j : String) : Nat :=
  List.countP (fun p => p.1 == j) s

/-- DELETE FROM refresh_tokens WHERE jti = ? (auth_handler.rs line 205 and
line 303). -/
def Store.erase (s : Store) (j : String) : Store :=
  List.filter (fun p => !(p.1 == j)) s

/-- INSERT INTO refresh_tokens (jti, user_id, expires_at) VALUES (?,?,?)
ON DUPLICATE KEY UPDATE jti = VALUES(jti), expires_at = VALUES(expires_at)
(auth_handler.rs lines 161-168 and 243-250).  Note that user_id is absent
from the update list: on a duplicate key only expires_at is rewritten and
the stored user_id keeps its old value. -/
def Store.persist (s : Store) (j : String) (userId expiresAt : Int) : Store :=
  if (List.find? (fun p => p.1 == j) s).isSome then
    List.map
      (fun p : String × RefreshRecord =>
        if p.1 == j then (p.1, ⟨p.2.userId, expiresAt⟩) else p) s
  else
    s ++ [(j, ⟨userId, expiresAt⟩)]

/-- Error taxonomy of the handlers.  The first four are the
credential-validation rejections (all returned as HTTP 401 by the code);
the last three are the internal failures (HTTP 500):  signingFailure is a
failed jwt encode call, invalidUserIdFormat is the sub claim failing
parse::<i64> (auth_handler.rs line 241), storeUnavailable is a SQL
statement erroring. -/
inductive AuthError where
  | missingCredential
  | malformedToken
  | expiredToken
  | replayedToken
  | signingFailure
  | invalidUserIdFormat
  | storeUnavailable
deriving DecidableEq, Repr

/-- HTTP status the code returns for each error. -/
def AuthError.status : AuthError → Nat
  | .missingCredential => 401
  | .malformedToken => 401
  | .expiredToken => 401
  | .replayedToken => 401
  | .signingFailure => 500
  | .invalidUserIdFormat => 500
  | .storeUnavailable => 500

/-- Rejection produced from a jsonwebtoken decode error (the code maps all
of them to HTTP 401 "Invalid refresh token", logging the kind). -/
def rejectOfJwtError : JwtError → AuthError
  | .invalidSignature => .malformedToken
  | .malformed => .malformedToken
  | .expiredSignature => .expiredToken

/-- Decimal digits to a natural number, None on a non-digit. -/
def digitsToNat? : List Char → Nat → Option Nat
  | [], acc => some acc
  | c :: cs, acc =>
    if c.isDigit then digitsToNat? cs (acc * 10 + (c.toNat - 48))
    else none

/-- Rust str::parse::<i64>: optional sign, one or more ASCII digits, value
within the i64 range. -/
def parseI64 (s : String) : Option Int :=
  let signed : Bool × List Char :=
    match s.toList with
    | '-' :: rest => (true, rest)
    | '+' :: rest => (false, rest)
    | rest => (false, rest)
  if signed.2.isEmpty then none
  else
    match digitsToNat? signed.2 0 with
    | none => none
    | some n =>
      let v : Int := if signed.1 then -(n : Int) else (n : Int)
      if -(2 ^ 63) ≤ v ∧ v < 2 ^ 63 then some v else none

/-- SameSite attribute values of the cookie crate. -/
inductive CookieSameSite where
  | strict
  | lax
  | none
deriving DecidableEq, Repr

/-- Attributes of one Set-Cookie value as built by the cookie crate.
expires is None when the builder sets no Expires attribute (session
cookie), some t for an Expires at Unix time t. -/
structure CookieAttrs where
  name : String
  value : String
  path : String
  secure : Bool
  httpOnly : Bool
  sameSite : CookieSameSite
  domain : Option String
  expires : Option Int
deriving DecidableEq, Repr

/-- create_cookies (auth_handler.rs lines 46-71): access cookie on the root
path with no Expires attribute, refresh cookie on the refresh endpoint path
expiring in 7 days; both secure, http-only, SameSite=None, with the Domain
attribute added exactly when cookie_domain is configured. -/
def create_cookies (access_token refresh_token : String)
    (cookie_domain : Option String) (now : Int) : CookieAttrs × CookieAttrs :=
  ( { name := "__Secure-access_token"
    , value := access_token
    , path := "/"
    , secure := true
    , httpOnly := true
    , sameSite := CookieSameSite.none
    , domain := cookie_domain
    , expires := none }
  , { name := "__Secure-refresh_token"
    , value := refresh_token
    , path := "/api/v1/auth/refresh"
    , secure := true
    , httpOnly := true
    , sameSite := CookieSameSite.none
    , domain := cookie_domain
    , expires := some (now + 7 * 86400) } )

/-- Clearing access cookie built by logout_handler (auth_handler.rs lines
310-312): empty value, expiry at the Unix epoch, same attributes as the
created one. -/
def clear_access_cookie (cookie_domain : Option String) : CookieAttrs :=
  { name := "__Secure-access_token"
  , value := ""
  , path := "/"
  , secure := true
  , httpOnly := true
  , sameSite := CookieSameSite.none
  , domain := cookie_domain
  , expires := some 0 }

/-- Clearing refresh cookie built by logout_handler (auth_handler.rs lines
314-316). -/
def clear_refresh_cookie (cookie_domain : Option String) : CookieAttrs :=
  { name := "__Secure-refresh_token"
  , value := ""
  , path := "/api/v1/auth/refresh"
  , secure := true
  , httpOnly := true
  , sameSite := CookieSameSite.none
  , domain := cookie_domain
  , expires := some 0 }

/-- Path on which refresh_token_handler is mounted (main.rs line 140). -/
def refresh_route_path : String := "/api/v1/auth/refresh"

/-- Root path. -/
def root_path : String := "/"

/-- Token issuance segment of github_token_handler (auth_handler.rs lines
140-157): an access token with exp = now + 15 minutes and a refresh token
with a fresh jti and exp = now + 7 days, both signed with the shared
secret. -/
def issue_tokens (subject : String) (secret : String) (now : Int)
    (jti : String) : TokenStr × TokenStr :=
  ( .jwt ⟨.access subject (now + 15 * 60), secret⟩
  , .jwt ⟨.refresh subject jti (now + 7 * 86400), secret⟩ )

/-- A store mutation performed by a handler. -/
inductive StoreOp where
  | del (jti : String)
  | ins (jti : String) (userId : Int) (expiresAt : Int)
deriving DecidableEq, Repr

/-- Environment of one refresh_token_handler call: the signing secret, the
clock, the fresh jti drawn for the replacement token, and the
infrastructure outcome of each fallible step (the two jwt encode calls and
the two SQL statements). -/
structure RotateEnv where
  secret : String
  now : Int
  newJti : String
  signAccessOk : Bool
  signRefreshOk : Bool
  deleteOk : Bool
  persistOk : Bool
deriving DecidableEq, Repr

/-- Output of one refresh_token_handler call: the HTTP result (on success
the two new tokens), the store after the call, and the store mutations the
call performed in order. -/
structure RotateOutput where
  result : Except AuthError (TokenStr × TokenStr)
  store : Store
  ops : List StoreOp
deriving Repr

/-- refresh_token_handler (auth_handler.rs lines 186-271): read the refresh
cookie, decode and validate it, atomically DELETE its jti counting affected
rows (zero rows ⇒ replay rejection), sign a new access and refresh token,
parse the sub claim as i64, and upsert the new jti. -/
def refresh_token_handler (env : RotateEnv) (refreshCookie : Option TokenStr)
    (store : Store) : RotateOutput :=
  match refreshCookie with
  | none => ⟨.error .missingCredential, store, []⟩
  | some t =>
    match decodeRefresh t env.secret env.now with
    | .error e => ⟨.error (rejectOfJwtError e), store, []⟩
    | .ok claims =>
      if env.deleteOk then
        let deleted := Store.countJti store claims.jti
        let store1 := Store.erase store claims.jti
        if deleted = 0 then
          ⟨.error .replayedToken, store1, [.del claims.jti]⟩
        else if env.signAccessOk then
          let newAccess : TokenStr :=
            .jwt ⟨.access claims.sub (env.now + 15 * 60), env.secret⟩
          if env.signRefreshOk then
            let newRefresh : TokenStr :=
              .jwt ⟨.refresh claims.sub env.newJti (env.now + 7 * 86400), env.secret⟩
            match parseI64 claims.sub with
            | none => ⟨.error .invalidUserIdFormat, store1, [.del claims.jti]⟩
            | some uid =>
              if env.persistOk then
                ⟨.ok (newAccess, newRefresh)
                , Store.persist store1 env.newJti uid (env.now + 7 * 86400)
                , [.del claims.jti, .ins env.newJti uid (env.now + 7 * 86400)]⟩
              else ⟨.error .storeUnavailable, store1, [.del claims.jti]⟩
          else ⟨.error .signingFailure, store1, [.del claims.jti]⟩
        else ⟨.error .signingFailure, store1, [.del claims.jti]⟩
      else ⟨.error .storeUnavailable, store, []⟩

/-- Output of one logout_handler call. -/
structure LogoutOutput where
  accessCookie : CookieAttrs
  refreshCookie : CookieAttrs
  store : Store
  ops : List StoreOp
  status : Nat
deriving Repr

/-- logout_handler (auth_handler.rs lines 294-329): if a refresh cookie is
present and decodes with full validation, DELETE its jti ignoring the
result; then always answer 200 with the two clearing cookies. -/
def logout_handler (secret : String) (now : Int) (cookie_domain : Option String)
    (refreshCookie : Option TokenStr) (store : Store) : LogoutOutput :=
  let consumed : Store × List StoreOp :=
    match refreshCookie with
    | none => (store, [])
    | some t =>
      match decodeRefresh t secret now with
      | .ok claims => (Store.erase store claims.jti, [.del claims.jti])
      | .error _ => (store, [])
  { accessCookie := clear_access_cookie cookie_domain
  , refreshCookie := clear_refresh_cookie cookie_domain
  , store := consumed.1
  , ops := consumed.2
  , status := 200 }

/-- Body of the profile endpoint answer (struct MeResponse in main.rs
lines 39-43). -/
structure MeResponse where
  user_id : String
  access_token : TokenStr
deriving DecidableEq, Repr

/-- me_handler (auth_handler.rs lines 273-292): read the access cookie,
decode and validate it, and answer with the sub claim together with the
presented token string echoed back unchanged. -/
def me_handler (secret : String) (now : Int) (accessCookie : Option TokenStr) :
    Except AuthError MeResponse :=
  match accessCookie with
  | none => .error .missingCredential
  | some t =>
    match decodeAccess t secret now with
    | .error e => .error (rejectOfJwtError e)
    | .ok claims => .ok ⟨claims.sub, t⟩

/-! Helper lemmas about the store operations. -/

theorem Store.find_nil (j : String) : Store.find [] j = none := rfl

theorem Store.find_cons (p : String × RefreshRecord) (s : Store) (j : String) :
    Store.find (p :: s) j = if p.1 == j then some p.2 else Store.find s j := by
  cases hpj : p.1 == j <;> simp [Store.find, List.find?_cons, hpj]

theorem Store.erase_cons (p : String × RefreshRecord) (s : Store) (j : String) :
    Store.erase (p :: s) j =
      if p.1 == j then Store.erase s j else p :: Store.erase s j := by
  cases hpj : p.1 == j <;> simp [Store.erase, List.filter_cons, hpj]

theorem Store.countJti_cons (p : String × RefreshRecord) (s : Store) (j : String) :
    Store.countJti (p :: s) j =
      Store.countJti s j + (if p.1 == j then 1 else 0) := by
  cases hpj : p.1 == j <;> simp [Store.countJti, List.countP_cons, hpj]

theorem Store.find_erase_self (s : Store) (j : String) :
    Store.find (Store.erase s j) j = none := by
  induction s with
  | nil => rfl
  | cons p s ih =>
    rw [Store.erase_cons]
    cases hpj : p.1 == j with
    | true => simpa using ih
    | false => rw [if_neg (by simp [hpj]), Store.find_cons, if_neg (by simp [hpj])]; exact ih

theorem Store.countJti_eq_zero_iff (s : Store) (j : String) :
    Store.countJti s j = 0 ↔ Store.find s j = none := by
  induction s with
  | nil => simp [Store.countJti, Store.find]
  | cons p s ih =>
    rw [Store.countJti_cons, Store.find_cons]
    cases hpj : p.1 == j <;> simp [ih]

theorem Store.erase_of_find_none (s : Store) (j : String)
    (h : Store.find s j = none) : Store.erase s j = s := by
  induction s with
  | nil => rfl
  | cons p s ih =>
    rw [Store.find_cons] at h
    rw [Store.erase_cons]
    cases hpj : p.1 == j with
    | true => rw [hpj] at h; simp at h
    | false =>
      rw [hpj] at h
      simp only [Bool.false_eq_true, if_false] at h ⊢
      rw [ih h]

theorem Store.find_erase_of_none (s : Store) (j k : String)
    (h : Store.find s k = none) : Store.find (Store.erase s j) k = none := by
  induction s with
  | nil => rfl
  | cons p s ih =>
    rw [Store.find_cons] at h
    rw [Store.erase_cons]
    cases hpk : p.1 == k with
    | true => rw [hpk] at h; simp at h
    | false =>
      rw [hpk] at h
      simp only [Bool.false_eq_true, if_false] at h
      cases hpj : p.1 == j with
      | true => simpa using ih h
      | false =>
        rw [if_neg (by simp [hpj]), Store.find_cons, if_neg (by simp [hpk])]
        exact ih h

theorem Store.find_append (s₁ s₂ : Store) (j : String) :
    Store.find (s₁ ++ s₂) j =
      (Store.find s₁ j).orElse (fun _ => Store.find s₂ j) := by
  induction s₁ with
  | nil => simp [Store.find]
  | cons p s ih =>
    rw [List.cons_append, Store.find_cons, Store.find_cons]
    cases hpj : p.1 == j <;> simp [ih]

theorem Store.persist_of_find_none (s : Store) (j : String) (u e : Int)
    (h : Store.find s j = none) :
    Store.persist s j u e = s ++ [(j, ⟨u, e⟩)] := by
  have hfind : List.find? (fun p => p.1 == j) s = none := by
    unfold Store.find at h
    cases hf : List.find? (fun p => p.1 == j) s with
    | none => rfl
    | some q => rw [hf] at h; simp at h
  unfold Store.persist
  rw [hfind]
  simp

theorem Store.find_mapUpdate (s : Store) (j : String) (e : Int) :
    Store.find
      (List.map (fun p : String × RefreshRecord =>
        if p.1 == j then (p.1, ⟨p.2.userId, e⟩) else p) s) j
      = (Store.find s j).map (fun r => ⟨r.userId, e⟩) := by
  induction s with
  | nil => rfl
  | cons p s ih =>
    simp only [List.map_cons, Store.find_cons, beq_iff_eq] at ih ⊢
    by_cases hpj : p.1 = j
    · simp [hpj]
    · simp [hpj, ih]

theorem Store.mapUpdate_of_find_none (s : Store) (j : String) (e : Int)
    (h : Store.find s j = none) :
    List.map (fun p : String × RefreshRecord =>
      if p.1 == j then (p.1, ⟨p.2.userId, e⟩) else p) s = s := by
  induction s with
  | nil => rfl
  | cons p s ih =>
    rw [Store.find_cons] at h
    rw [List.map_cons]
    cases hpj : p.1 == j with
    | true => rw [hpj] at h; simp at h
    | false =>
      rw [hpj] at h
      simp only [Bool.false_eq_true, if_false] at h
      rw [if_neg (by simp [hpj]), ih h]

theorem Store.find?_isSome_of_find_some (s : Store) (j : String)
    (old : RefreshRecord) (h : Store.find s j = some old) :
    (List.find? (fun p => p.1 == j) s).isSome = true := by
  unfold Store.find at h
  cases hf : List.find? (fun p => p.1 == j) s with
  | none => rw [hf] at h; simp at h
  | some q => rfl

theorem Store.persist_of_find_some (s : Store) (j : String) (u e : Int)
    (old : RefreshRecord) (h : Store.find s j = some old) :
    Store.persist s j u e =
      List.map (fun p : String × RefreshRecord =>
        if p.1 == j then (p.1, ⟨p.2.userId, e⟩) else p) s := by
  unfold Store.persist
  rw [if_pos (Store.find?_isSome_of_find_some s j old h)]

theorem Store.find_persist_self_of_some (s : Store) (j : String) (u e : Int)
    (old : RefreshRecord) (h : Store.find s j = some old) :
    Store.find (Store.persist s j u e) j = some ⟨old.userId, e⟩ := by
  rw [Store.persist_of_find_some s j u e old h, Store.find_mapUpdate, h]
  rfl

theorem Store.persist_idem (s : Store) (j : String) (u e : Int) :
    Store.persist (Store.persist s j u e) j u e = Store.persist s j u e := by
  cases hf : Store.find s j with
  | none =>
    rw [Store.persist_of_find_none s j u e hf]
    have hfind : Store.find (s ++ [(j, ⟨u, e⟩)]) j = some ⟨u, e⟩ := by
      rw [Store.find_append, hf]
      simp [Store.find_cons]
    rw [Store.persist_of_find_some _ j u e _ hfind, List.map_append,
        Store.mapUpdate_of_find_none s j e hf]
    simp
  | some old =>
    have h1 : Store.find (Store.persist s j u e) j = some ⟨old.userId, e⟩ :=
      Store.find_persist_self_of_some s j u e old hf
    rw [Store.persist_of_find_some _ j u e _ h1,
        Store.persist_of_find_some s j u e _ hf, List.map_map]
    apply List.map_congr_left
    intro p _
    by_cases hpj : p.1 = j <;> simp [hpj]

/-! Claim theorems. -/

/-- C1: for every refresh credential R1 with identifier j1 that has a live
store record, the first rotate(R1) call succeeds, returns a new pair
(A2, R2[j2]), removes j1 from the store and stores exactly one new record
j2; any second rotate(R1) call afterwards (same secret, before R1's own
expiry, with the store reachable) yields the replayed-token rejection. -/
theorem rotate_consumes_then_replaces
    (env1 env2 : RotateEnv) (sub j1 : String) (exp uid : Int) (store : Store)
    (hA : env1.signAccessOk = true) (hR : env1.signRefreshOk = true)
    (hD : env1.deleteOk = true) (hP : env1.persistOk = true)
    (hexp1 : ¬ exp < env1.now)
    (hlive : (Store.find store j1).isSome = true)
    (hsub : parseI64 sub = some uid)
    (hfresh1 : env1.newJti ≠ j1)
    (hfresh2 : Store.find store env1.newJti = none)
    (hsec : env2.secret = env1.secret)
    (hexp2 : ¬ exp < env2.now)
    (hD2 : env2.deleteOk = true) :
    refresh_token_handler env1 (some (.jwt ⟨.refresh sub j1 exp, env1.secret⟩)) store
      = ⟨.ok (.jwt ⟨.access sub (env1.now + 15 * 60), env1.secret⟩,
              .jwt ⟨.refresh sub env1.newJti (env1.now + 7 * 86400), env1.secret⟩),
         Store.erase store j1 ++ [(env1.newJti, ⟨uid, env1.now + 7 * 86400⟩)],
         [.del j1, .ins env1.newJti uid (env1.now + 7 * 86400)]⟩
    ∧ Store.find (Store.erase store j1 ++ [(env1.newJti, ⟨uid, env1.now + 7 * 86400⟩)]) j1
        = none
    ∧ Store.find (Store.erase store j1 ++ [(env1.newJti, ⟨uid, env1.now + 7 * 86400⟩)])
        env1.newJti = some ⟨uid, env1.now + 7 * 86400⟩
    ∧ refresh_token_handler env2 (some (.jwt ⟨.refresh sub j1 exp, env1.secret⟩))
        (Store.erase store j1 ++ [(env1.newJti, ⟨uid, env1.now + 7 * 86400⟩)])
      = ⟨.error .replayedToken,
         Store.erase store j1 ++ [(env1.newJti, ⟨uid, env1.now + 7 * 86400⟩)],
         [.del j1]⟩ := by
  have hdec1 : decodeRefresh (.jwt ⟨.refresh sub j1 exp, env1.secret⟩) env1.secret env1.now
      = .ok ⟨sub, j1, exp⟩ := by
    simp [decodeRefresh, hexp1]
  have hcnt : ¬ Store.countJti store j1 = 0 := by
    rw [Store.countJti_eq_zero_iff]
    intro h
    rw [h] at hlive
    simp at hlive
  have hstore' : Store.persist (Store.erase store j1) env1.newJti uid (env1.now + 7 * 86400)
      = Store.erase store j1 ++ [(env1.newJti, ⟨uid, env1.now + 7 * 86400⟩)] :=
    Store.persist_of_find_none (Store.erase store j1) env1.newJti uid (env1.now + 7 * 86400)
      (Store.find_erase_of_none store j1 env1.newJti hfresh2)
  have hmain : refresh_token_handler env1
      (some (.jwt ⟨.refresh sub j1 exp, env1.secret⟩)) store
      = ⟨.ok (.jwt ⟨.access sub (env1.now + 15 * 60), env1.secret⟩,
              .jwt ⟨.refresh sub env1.newJti (env1.now + 7 * 86400), env1.secret⟩),
         Store.erase store j1 ++ [(env1.newJti, ⟨uid, env1.now + 7 * 86400⟩)],
         [.del j1, .ins env1.newJti uid (env1.now + 7 * 86400)]⟩ := by
    simp only [refresh_token_handler, hdec1, hA, hR, hD, hP, hsub, hstore']
    simp [hcnt]
  have hj1gone : Store.find
      (Store.erase store j1 ++ [(env1.newJti, ⟨uid, env1.now + 7 * 86400⟩)]) j1 = none := by
    rw [Store.find_append, Store.find_erase_self]
    simp [Store.find_cons, Store.find_nil, hfresh1]
  have hj2there : Store.find
      (Store.erase store j1 ++ [(env1.newJti, ⟨uid, env1.now + 7 * 86400⟩)]) env1.newJti
      = some ⟨uid, env1.now + 7 * 86400⟩ := by
    rw [Store.find_append, Store.find_erase_of_none store j1 env1.newJti hfresh2]
    simp [Store.find_cons, Store.find_nil]
  have hdec2 : decodeRefresh (.jwt ⟨.refresh sub j1 exp, env1.secret⟩) env2.secret env2.now
      = .ok ⟨sub, j1, exp⟩ := by
    simp [decodeRefresh, hsec, hexp2]
  have hcnt2 : Store.countJti
      (Store.erase store j1 ++ [(env1.newJti, ⟨uid, env1.now + 7 * 86400⟩)]) j1 = 0 :=
    (Store.countJti_eq_zero_iff _ j1).mpr hj1gone
  have herase2 : Store.erase
      (Store.erase store j1 ++ [(env1.newJti, ⟨uid, env1.now + 7 * 86400⟩)]) j1
      = Store.erase store j1 ++ [(env1.newJti, ⟨uid, env1.now + 7 * 86400⟩)] :=
    Store.erase_of_find_none _ j1 hj1gone
  have hsecond : refresh_token_handler env2
      (some (.jwt ⟨.refresh sub j1 exp, env1.secret⟩))
      (Store.erase store j1 ++ [(env1.newJti, ⟨uid, env1.now + 7 * 86400⟩)])
      = ⟨.error .replayedToken,
         Store.erase store j1 ++ [(env1.newJti, ⟨uid, env1.now + 7 * 86400⟩)],
         [.del j1]⟩ := by
    simp only [refresh_token_handler, hdec2, hD2, hcnt2, herase2]
    simp
  exact ⟨hmain, hj1gone, hj2there, hsecond⟩

/-- Witness for C1: the end-to-end scenario with subject "7", record j1 in
the store, rotating at time 1000 and replaying at time 2000. -/
theorem rotate_consumes_then_replaces_witness :
    refresh_token_handler ⟨"sec", 1000, "j2", true, true, true, true⟩
        (some (.jwt ⟨.refresh "7" "j1" 700000, "sec"⟩)) [("j1", ⟨7, 9999⟩)]
      = ⟨.ok (.jwt ⟨.access "7" 1900, "sec"⟩, .jwt ⟨.refresh "7" "j2" 605800, "sec"⟩),
         [("j2", ⟨7, 605800⟩)], [.del "j1", .ins "j2" 7 605800]⟩
    ∧ Store.find [("j2", (⟨7, 605800⟩ : RefreshRecord))] "j1" = none
    ∧ Store.find [("j2", (⟨7, 605800⟩ : RefreshRecord))] "j2" = some ⟨7, 605800⟩
    ∧ refresh_token_handler ⟨"sec", 2000, "j3", true, true, true, true⟩
        (some (.jwt ⟨.refresh "7" "j1" 700000, "sec"⟩)) [("j2", ⟨7, 605800⟩)]
      = ⟨.error .replayedToken, [("j2", ⟨7, 605800⟩)], [.del "j1"]⟩ :=
  rotate_consumes_then_replaces
    ⟨"sec", 1000, "j2", true, true, true, true⟩
    ⟨"sec", 2000, "j3", true, true, true, true⟩
    "7" "j1" 700000 7 [("j1", ⟨7, 9999⟩)]
    rfl rfl rfl rfl (by decide) (by decide) (by decide) (by decide)
    (by decide) rfl (by decide) rfl

/-- C2 counterexample: the upsert does not overwrite the stored subject.
Persisting (jti "j", subject 2, expiry 9) over an existing record with
subject 1 yields subject 1 with the new expiry, not subject 2. -/
theorem persist_counterexample :
    Store.persist [("j", ⟨1, 5⟩)] "j" 2 9 = [("j", ⟨1, 9⟩)]
    ∧ Store.persist [("j", ⟨1, 5⟩)] "j" 2 9 ≠ [("j", ⟨2, 9⟩)] := by
  exact ⟨rfl, by decide⟩

/-- C2 amended: persist(jti, subject, expiry) inserts a new record when the
jti is absent; when the jti already exists it overwrites the expiry but
keeps the stored subject (user_id is absent from the ON DUPLICATE KEY
UPDATE list); repeating the same persist call is idempotent. -/
theorem persist_upsert (s : Store) (j : String) (u e : Int) :
    (∀ old, Store.find s j = some old →
        Store.find (Store.persist s j u e) j = some ⟨old.userId, e⟩)
    ∧ (Store.find s j = none → Store.persist s j u e = s ++ [(j, ⟨u, e⟩)])
    ∧ Store.persist (Store.persist s j u e) j u e = Store.persist s j u e := by
  refine ⟨?_, ?_, Store.persist_idem s j u e⟩
  · intro old h
    exact Store.find_persist_self_of_some s j u e old h
  · intro h
    exact Store.persist_of_find_none s j u e h

/-- Witness for C2 amended: both the occupied-jti and the fresh-jti case,
and idempotence, at concrete stores. -/
theorem persist_upsert_witness :
    Store.find (Store.persist [("j", ⟨1, 5⟩)] "j" 2 9) "j" = some ⟨1, 9⟩
    ∧ Store.persist [] "j" 2 9 = [("j", ⟨2, 9⟩)]
    ∧ Store.persist (Store.persist [] "j" 2 9) "j" 2 9 = Store.persist [] "j" 2 9 := by
  refine ⟨(persist_upsert [("j", ⟨1, 5⟩)] "j" 2 9).1 ⟨1, 5⟩ rfl, ?_,
    (persist_upsert [] "j" 2 9).2.2⟩
  have h := (persist_upsert [] "j" 2 9).2.1 rfl
  simpa using h

/-- C3: a refresh credential whose expiry is in the past at rotate time is
rejected as expired even when its jti still has a live (non-expired) store
record; the store is untouched and no store operation happens. -/
theorem rotate_expired_rejected
    (env : RotateEnv) (sub j : String) (exp : Int) (store : Store)
    (rec : RefreshRecord)
    (hexp : exp < env.now)
    (_hrec : Store.find store j = some rec)
    (_hlive : env.now < rec.expiresAt) :
    refresh_token_handler env (some (.jwt ⟨.refresh sub j exp, env.secret⟩)) store
      = ⟨.error .expiredToken, store, []⟩ := by
  have hdec : decodeRefresh (.jwt ⟨.refresh sub j exp, env.secret⟩) env.secret env.now
      = .error .expiredSignature := by
    simp [decodeRefresh, hexp]
  simp [refresh_token_handler, hdec, rejectOfJwtError]

/-- Witness for C3: a token expired at 500 presented at time 1000 while its
record (expiring at 2000) is still live. -/
theorem rotate_expired_rejected_witness :
    refresh_token_handler ⟨"sec", 1000, "j2", true, true, true, true⟩
        (some (.jwt ⟨.refresh "7" "j" 500, "sec"⟩)) [("j", ⟨7, 2000⟩)]
      = ⟨.error .expiredToken, [("j", ⟨7, 2000⟩)], []⟩ :=
  rotate_expired_rejected ⟨"sec", 1000, "j2", true, true, true, true⟩
    "7" "j" 500 [("j", ⟨7, 2000⟩)] ⟨7, 2000⟩ (by decide) rfl (by decide)

/-- C5: a rotate call whose refresh cookie is missing, or whose credential
fails the signature, expiry or format check, is rejected (MissingCredential
for the missing cookie; MalformedToken or ExpiredToken otherwise) without
any store operation, and the store after the rejected call equals the store
before it. -/
theorem rotate_precheck_rejection_frame
    (env : RotateEnv) (oc : Option TokenStr) (store : Store)
    (h : oc = none ∨ ∃ t e, oc = some t ∧ decodeRefresh t env.secret env.now = .error e) :
    (refresh_token_handler env oc store).store = store
    ∧ (refresh_token_handler env oc store).ops = []
    ∧ (∃ err, (refresh_token_handler env oc store).result = .error err
        ∧ (err = .missingCredential ∨ err = .malformedToken ∨ err = .expiredToken))
    ∧ (oc = none → (refresh_token_handler env oc store).result = .error .missingCredential) := by
  rcases h with h | ⟨t, e, hoc, hdec⟩
  · subst h
    exact ⟨rfl, rfl, ⟨.missingCredential, rfl, Or.inl rfl⟩, fun _ => rfl⟩
  · subst hoc
    refine ⟨by simp [refresh_token_handler, hdec], by simp [refresh_token_handler, hdec],
      ⟨rejectOfJwtError e, by simp [refresh_token_handler, hdec], ?_⟩, ?_⟩
    · cases e
      · exact Or.inr (Or.inl rfl)
      · exact Or.inr (Or.inr rfl)
      · exact Or.inr (Or.inl rfl)
    · intro hcontra
      exact absurd hcontra (by simp)

/-- Witness for C5: a cookie carrying a string that is not a JWT at all is
rejected as malformed and the store survives unchanged. -/
theorem rotate_precheck_rejection_frame_witness :
    (refresh_token_handler ⟨"sec", 1000, "j9", true, true, true, true⟩
        (some (.garbage "not-a-jwt")) [("a", ⟨1, 2⟩)]).store = [("a", ⟨1, 2⟩)]
    ∧ (refresh_token_handler ⟨"sec", 1000, "j9", true, true, true, true⟩
        (some (.garbage "not-a-jwt")) [("a", ⟨1, 2⟩)]).ops = []
    ∧ (∃ err, (refresh_token_handler ⟨"sec", 1000, "j9", true, true, true, true⟩
          (some (.garbage "not-a-jwt")) [("a", ⟨1, 2⟩)]).result = .error err
        ∧ (err = .missingCredential ∨ err = .malformedToken ∨ err = .expiredToken))
    ∧ ((some (TokenStr.garbage "not-a-jwt") : Option TokenStr) = none →
        (refresh_token_handler ⟨"sec", 1000, "j9", true, true, true, true⟩
          (some (.garbage "not-a-jwt")) [("a", ⟨1, 2⟩)]).result
          = .error .missingCredential) :=
  rotate_precheck_rejection_frame ⟨"sec", 1000, "j9", true, true, true, true⟩
    (some (.garbage "not-a-jwt")) [("a", ⟨1, 2⟩)]
    (Or.inr ⟨.garbage "not-a-jwt", .malformed, rfl, rfl⟩)

/-- C9: rotation is not atomic across its steps: when the consume succeeded
(the old record was deleted) but a later step fails — one of the two jwt
encode calls, the i64 parse of the sub claim, or the persist of the new
record — the handler answers an internal (500) error, the old refresh
record stays deleted, and no new record has been stored. -/
theorem rotate_post_consume_failure_leaves_no_record
    (env : RotateEnv) (sub j : String) (exp : Int) (store : Store)
    (hD : env.deleteOk = true)
    (hexp : ¬ exp < env.now)
    (hlive : (Store.find store j).isSome = true)
    (hfail : env.signAccessOk = false ∨ env.signRefreshOk = false
      ∨ parseI64 sub = none ∨ env.persistOk = false) :
    ∃ err, refresh_token_handler env (some (.jwt ⟨.refresh sub j exp, env.secret⟩)) store
        = ⟨.error err, Store.erase store j, [.del j]⟩
      ∧ AuthError.status err = 500 := by
  have hdec : decodeRefresh (.jwt ⟨.refresh sub j exp, env.secret⟩) env.secret env.now
      = .ok ⟨sub, j, exp⟩ := by
    simp [decodeRefresh, hexp]
  have hcnt : ¬ Store.countJti store j = 0 := by
    rw [Store.countJti_eq_zero_iff]
    intro h
    rw [h] at hlive
    simp at hlive
  cases hsA : env.signAccessOk with
  | false =>
    exact ⟨.signingFailure, by simp [refresh_token_handler, hdec, hD, hcnt, hsA], rfl⟩
  | true =>
    cases hsR : env.signRefreshOk with
    | false =>
      exact ⟨.signingFailure, by simp [refresh_token_handler, hdec, hD, hcnt, hsA, hsR], rfl⟩
    | true =>
      cases hparse : parseI64 sub with
      | none =>
        exact ⟨.invalidUserIdFormat,
          by simp [refresh_token_handler, hdec, hD, hcnt, hsA, hsR, hparse], rfl⟩
      | some uid =>
        cases hpOk : env.persistOk with
        | false =>
          exact ⟨.storeUnavailable,
            by simp [refresh_token_handler, hdec, hD, hcnt, hsA, hsR, hparse, hpOk], rfl⟩
        | true =>
          rcases hfail with h | h | h | h <;> simp_all

/-- Witness for C9: the presented credential's subject "abc" does not parse
as an i64, so after the consume deleted j1 the call fails internally with
the record gone and nothing new stored. -/
theorem rotate_post_consume_failure_witness :
    ∃ err, refresh_token_handler ⟨"sec", 1000, "j2", true, true, true, true⟩
        (some (.jwt ⟨.refresh "abc" "j1" 700000, "sec"⟩)) [("j1", ⟨7, 9999⟩)]
        = ⟨.error err, Store.erase [("j1", ⟨7, 9999⟩)] "j1", [.del "j1"]⟩
      ∧ AuthError.status err = 500 :=
  rotate_post_consume_failure_leaves_no_record
    ⟨"sec", 1000, "j2", true, true, true, true⟩ "abc" "j1" 700000
    [("j1", ⟨7, 9999⟩)] rfl (by decide) (by decide)
    (Or.inr (Or.inr (Or.inl (by decide))))

/-- C4 counterexample: a logout call carrying a refresh cookie holding a
well-formed but expired token (jti "j2", signed with the right secret,
expiry 100, presented at time 200) with a live record for "j2" performs no
consume at all — the store is unchanged and no store operation ran — though
consuming "j2" would have changed the store.  This contradicts the claim
that the jti is decoded with signature and expiry failures ignored and
consume(jti) attempted on every logout call carrying a refresh cookie. -/
theorem logout_counterexample :
    (logout_handler "sec" 200 none
        (some (.jwt ⟨.refresh "7" "j2" 100, "sec"⟩)) [("j2", ⟨7, 500⟩)]).ops = []
    ∧ (logout_handler "sec" 200 none
        (some (.jwt ⟨.refresh "7" "j2" 100, "sec"⟩)) [("j2", ⟨7, 500⟩)]).store
        = [("j2", ⟨7, 500⟩)]
    ∧ Store.erase [("j2", (⟨7, 500⟩ : RefreshRecord))] "j2" ≠ [("j2", ⟨7, 500⟩)] :=
  ⟨rfl, rfl, by decide⟩

/-- C4 amended: logout attempts the consume only when the refresh cookie is
present and its token passes full signature and expiry validation, in which
case the record of its jti is deleted; when the cookie is absent or fails
validation the store is untouched; and every logout call, whatever the
cookie and consume outcome, answers 200 with the two cleared cookies. -/
theorem logout_best_effort
    (secret : String) (now : Int) (dom : Option String)
    (t : TokenStr) (claims : RefreshTokenClaims) (store : Store)
    (hdec : decodeRefresh t secret now = .ok claims) :
    (logout_handler secret now dom (some t) store).store = Store.erase store claims.jti
    ∧ (logout_handler secret now dom (some t) store).ops = [.del claims.jti]
    ∧ (∀ oc : Option TokenStr, ∀ s : Store,
        (logout_handler secret now dom oc s).status = 200
        ∧ (logout_handler secret now dom oc s).accessCookie = clear_access_cookie dom
        ∧ (logout_handler secret now dom oc s).refreshCookie = clear_refresh_cookie dom)
    ∧ (∀ oc : Option TokenStr, ∀ s : Store,
        (oc = none ∨ ∃ t2 e2, oc = some t2 ∧ decodeRefresh t2 secret now = .error e2) →
        (logout_handler secret now dom oc s).store = s
        ∧ (logout_handler secret now dom oc s).ops = []) := by
  refine ⟨by simp [logout_handler, hdec], by simp [logout_handler, hdec], ?_, ?_⟩
  · intro oc s
    exact ⟨rfl, rfl, rfl⟩
  · intro oc s h
    rcases h with h | ⟨t2, e2, hoc, hd2⟩
    · subst h
      exact ⟨rfl, rfl⟩
    · subst hoc
      exact ⟨by simp [logout_handler, hd2], by simp [logout_handler, hd2]⟩

/-- Witness for C4 amended: a valid refresh cookie at logout consumes its
jti and the cleared cookies come back with a 200. -/
theorem logout_best_effort_witness :
    (logout_handler "sec" 100 none
        (some (.jwt ⟨.refresh "7" "j2" 700000, "sec"⟩)) [("j2", ⟨7, 9999⟩)]).store
      = Store.erase [("j2", ⟨7, 9999⟩)] "j2"
    ∧ (logout_handler "sec" 100 none
        (some (.jwt ⟨.refresh "7" "j2" 700000, "sec"⟩)) [("j2", ⟨7, 9999⟩)]).ops
      = [.del "j2"]
    ∧ (∀ oc : Option TokenStr, ∀ s : Store,
        (logout_handler "sec" 100 none oc s).status = 200
        ∧ (logout_handler "sec" 100 none oc s).accessCookie = clear_access_cookie none
        ∧ (logout_handler "sec" 100 none oc s).refreshCookie = clear_refresh_cookie none)
    ∧ (∀ oc : Option TokenStr, ∀ s : Store,
        (oc = none ∨ ∃ t2 e2, oc = some t2 ∧ decodeRefresh t2 "sec" 100 = .error e2) →
        (logout_handler "sec" 100 none oc s).store = s
        ∧ (logout_handler "sec" 100 none oc s).ops = []) :=
  logout_best_effort "sec" 100 none (.jwt ⟨.refresh "7" "j2" 700000, "sec"⟩)
    ⟨"7", "j2", 700000⟩ [("j2", ⟨7, 9999⟩)] rfl

/-- C6: for every domain configuration, the clearing cookies carry exactly
the same name, path, secure, httpOnly, sameSite and domain attributes as
the corresponding cookies produced by create_cookies, but with empty value
and expiry at the Unix epoch. -/
theorem clear_cookies_attribute_parity
    (a r : String) (dom : Option String) (now : Int) :
    (clear_access_cookie dom).name = (create_cookies a r dom now).1.name
    ∧ (clear_access_cookie dom).path = (create_cookies a r dom now).1.path
    ∧ (clear_access_cookie dom).secure = (create_cookies a r dom now).1.secure
    ∧ (clear_access_cookie dom).httpOnly = (create_cookies a r dom now).1.httpOnly
    ∧ (clear_access_cookie dom).sameSite = (create_cookies a r dom now).1.sameSite
    ∧ (clear_access_cookie dom).domain = (create_cookies a r dom now).1.domain
    ∧ (clear_access_cookie dom).value = ""
    ∧ (clear_access_cookie dom).expires = some 0
    ∧ (clear_refresh_cookie dom).name = (create_cookies a r dom now).2.name
    ∧ (clear_refresh_cookie dom).path = (create_cookies a r dom now).2.path
    ∧ (clear_refresh_cookie dom).secure = (create_cookies a r dom now).2.secure
    ∧ (clear_refresh_cookie dom).httpOnly = (create_cookies a r dom now).2.httpOnly
    ∧ (clear_refresh_cookie dom).sameSite = (create_cookies a r dom now).2.sameSite
    ∧ (clear_refresh_cookie dom).domain = (create_cookies a r dom now).2.domain
    ∧ (clear_refresh_cookie dom).value = ""
    ∧ (clear_refresh_cookie dom).expires = some 0 :=
  ⟨rfl, rfl, rfl, rfl, rfl, rfl, rfl, rfl, rfl, rfl, rfl, rfl, rfl, rfl, rfl, rfl⟩

/-- C7: the encoded refresh cookie is scoped to the path the refresh route
is mounted on, the access cookie to the root path, and both carry the
Secure, HttpOnly and SameSite=None attributes. -/
theorem cookie_scoping (a r : String) (dom : Option String) (now : Int) :
    (create_cookies a r dom now).2.path = refresh_route_path
    ∧ (create_cookies a r dom now).1.path = root_path
    ∧ (create_cookies a r dom now).1.secure = true
    ∧ (create_cookies a r dom now).1.httpOnly = true
    ∧ (create_cookies a r dom now).1.sameSite = CookieSameSite.none
    ∧ (create_cookies a r dom now).2.secure = true
    ∧ (create_cookies a r dom now).2.httpOnly = true
    ∧ (create_cookies a r dom now).2.sameSite = CookieSameSite.none :=
  ⟨rfl, rfl, rfl, rfl, rfl, rfl, rfl, rfl⟩

/-- C8: issuing an access/refresh pair for any subject and immediately
verifying both credentials with the same secret succeeds and recovers the
subject from each. -/
theorem issue_verify_roundtrip (s secret jti : String) (now : Int) :
    decodeAccess (issue_tokens s secret now jti).1 secret now
      = .ok ⟨s, now + 15 * 60⟩
    ∧ decodeRefresh (issue_tokens s secret now jti).2 secret now
      = .ok ⟨s, jti, now + 7 * 86400⟩ := by
  constructor
  · have h : ¬ (now + 15 * 60 < now) := by omega
    simp [issue_tokens, decodeAccess, h]
  · have h : ¬ (now + 7 * 86400 < now) := by omega
    simp [issue_tokens, decodeRefresh, h]

/-- C10: a profile request whose access cookie passes signature and expiry
verification is answered with the subject identifier alongside the
presented access token echoed back verbatim. -/
theorem me_echoes_token
    (secret : String) (now : Int) (t : TokenStr) (claims : AccessTokenClaims)
    (hdec : decodeAccess t secret now = .ok claims) :
    me_handler secret now (some t) = .ok ⟨claims.sub, t⟩ := by
  simp [me_handler, hdec]

/-- Witness for C10: a concrete valid access token is echoed back next to
its subject. -/
theorem me_echoes_token_witness :
    me_handler "sec" 100 (some (.jwt ⟨.access "7" 500, "sec"⟩))
      = .ok ⟨"7", .jwt ⟨.access "7" 500, "sec"⟩⟩ :=
  me_echoes_token "sec" 100 (.jwt ⟨.access "7" 500, "sec"⟩) ⟨"7", 500⟩ rfl

end ApiAuth
